import Mathlib

/-
Shallow embedding of the animated canvas scenes of the aryansingh.org site:
VectorField.tsx, DoublePendulum.tsx, SpacetimeManifold.tsx,
SpacetimeCursor.tsx and StarField.tsx.

Conventions of the embedding:
* JS numbers are modelled as exact rationals (ℚ).
* The host's transcendental functions (Math.sin, Math.cos, Math.acos,
  Math.sqrt, Math.atan2, the simplex-noise sampler) are modelled as explicit
  function parameters over ℚ, written msin, mcos, macos, msqrt, matan2,
  noise3; the float value Math.PI is the parameter mpi.
* The host's Math.random stream is modelled as an explicit sequence
  rng : ℕ → ℚ of successive draws; a definition that takes such a stream but
  never consumes it mirrors source code that never calls Math.random.
-/

/-- Render-scheduler state of one mounted scene: how many frames have been
rasterized so far and whether a requestAnimationFrame callback is pending. -/
structure SchedState where
  frames : Nat
  pending : Bool
deriving DecidableEq, Repr

/-- The five animated scenes of the repository. -/
inductive Scene
  | vectorField
  | doublePendulum
  | manifold
  | starField
  | cursor
deriving DecidableEq, Repr

/-- One invocation of a scene's animate callback, as a transition on the
scheduler state, given the mount-time reduced-motion flag.

* StarField.tsx lines 153-161: requestAnimationFrame is issued at the very
  top of the body, before the reduced-motion check; both branches then render.
* DoublePendulum.tsx lines 86-93: the reduced-motion branch fills a static
  rectangle and returns before requestAnimationFrame is reached.
* SpacetimeManifold.tsx lines 208-214: the reduced-motion branch renders once
  and returns before requestAnimationFrame is reached.
* VectorField.tsx lines 149-232 and SpacetimeCursor.tsx lines 116-161: the
  bodies never test reduced motion (the mount effect already returned in that
  case); VectorField requests the next frame at the end of the body,
  SpacetimeCursor at the top. -/
def sceneAnimate : Scene → Bool → SchedState → SchedState
  | .vectorField, _, s => { frames := s.frames + 1, pending := true }
  | .doublePendulum, rm, s =>
      if rm then { s with frames := s.frames + 1 }
      else { frames := s.frames + 1, pending := true }
  | .manifold, rm, s =>
      if rm then { s with frames := s.frames + 1 }
      else { frames := s.frames + 1, pending := true }
  | .starField, rm, s =>
      if rm then { frames := s.frames + 1, pending := true }
      else { frames := s.frames + 1, pending := true }
  | .cursor, _, s => { frames := s.frames + 1, pending := true }

/-- Mounting a scene.  VectorField.tsx lines 99-106 draws one static fill and
returns from the effect when reduced motion is set, never entering the loop;
SpacetimeCursor.tsx lines 47-48 returns from the effect without drawing
anything; the other three scenes call their animate body once directly. -/
def sceneMount : Scene → Bool → SchedState
  | .vectorField, rm =>
      if rm then { frames := 1, pending := false }
      else sceneAnimate .vectorField rm { frames := 0, pending := false }
  | .cursor, rm =>
      if rm then { frames := 0, pending := false }
      else sceneAnimate .cursor rm { frames := 0, pending := false }
  | sc, rm => sceneAnimate sc rm { frames := 0, pending := false }

/-- One tick of the host's paint scheduler: fire the pending callback, if
any.  Firing consumes the request; the body may re-request. -/
def schedTick (sc : Scene) (rm : Bool) (s : SchedState) : SchedState :=
  if s.pending then sceneAnimate sc rm { s with pending := false } else s

/-- Scheduler state after mounting a scene and letting the host's paint
scheduler run for n ticks. -/
def schedRun (sc : Scene) (rm : Bool) : Nat → SchedState
  | 0 => sceneMount sc rm
  | n + 1 => schedTick sc rm (schedRun sc rm n)

/-- C1 counterexample: mounted with reduced motion set, the StarField scene
has a pending recurring callback and has rendered a second frame after one
scheduler tick, and the SpacetimeCursor scene renders no frame at all —
refuting "exactly one static frame is rendered and no recurring per-frame
callback is ever scheduled" for every scene. -/
theorem c1_counterexample :
    (schedRun .starField true 1).frames = 2 ∧
    (schedRun .starField true 1).pending = true ∧
    (schedRun .cursor true 0).frames = 0 := by
  decide

/-- C1 amended: with reduced motion set at mount, VectorField, DoublePendulum
and SpacetimeManifold render exactly one static frame and never have a
callback pending; StarField re-requests a frame on every tick (a recurring
callback, one render per tick); SpacetimeCursor renders nothing. -/
theorem c1_amended_reduced_motion (n : Nat) :
    schedRun .vectorField true n = { frames := 1, pending := false } ∧
    schedRun .doublePendulum true n = { frames := 1, pending := false } ∧
    schedRun .manifold true n = { frames := 1, pending := false } ∧
    schedRun .cursor true n = { frames := 0, pending := false } ∧
    (schedRun .starField true n).frames = n + 1 ∧
    (schedRun .starField true n).pending = true := by
  induction n with
  | zero => decide
  | succ k ih =>
    obtain ⟨h1, h2, h3, h4, h5, h6⟩ := ih
    refine ⟨?_, ?_, ?_, ?_, ?_, ?_⟩
    · simp [schedRun, h1, schedTick]
    · simp [schedRun, h2, schedTick]
    · simp [schedRun, h3, schedTick]
    · simp [schedRun, h4, schedTick]
    · simp [schedRun, schedTick, h5, h6, sceneAnimate]
    · simp [schedRun, schedTick, h6, sceneAnimate]

/-- Cursor-grid intensity update, one per frame (SpacetimeCursor.tsx
line 121): Math.min(1, intensity + 0.002). -/
def intensityStep (x : ℚ) : ℚ := min 1 (x + 1/500)

/-- Cursor-grid intensity after n frames; intensityRef starts at 0 at mount
(SpacetimeCursor.tsx line 37). -/
def intensityAfter : Nat → ℚ
  | 0 => 0
  | n + 1 => intensityStep (intensityAfter n)

/-- Closed form of the intensity ramp. -/
theorem intensityAfter_eq (n : Nat) : intensityAfter n = min 1 ((n : ℚ) / 500) := by
  induction n with
  | zero => simp [intensityAfter]
  | succ k ih =>
    rcases le_total (1 : ℚ) ((k : ℚ) / 500) with h | h
    · have h' : (1 : ℚ) ≤ ((k : ℚ) + 1) / 500 := by
        calc (1 : ℚ) ≤ (k : ℚ) / 500 := h
        _ ≤ ((k : ℚ) + 1) / 500 := by linarith
      rw [intensityAfter, ih, min_eq_left h, intensityStep]
      push_cast
      rw [min_eq_left h']
      rw [min_eq_left (by linarith)]
    · rw [intensityAfter, ih, min_eq_right h, intensityStep]
      push_cast
      congr 1
      ring

/-- C6: the cursor-grid intensity equals min 1 (n/500) after n frames — it
rises from 0 by the fixed per-frame increment 0.002 = 1/500, is
non-decreasing from frame to frame, and is exactly 1 from frame 500 on. -/
theorem c6_intensity_ratchet (n : Nat) :
    intensityAfter n = min 1 ((n : ℚ) / 500) ∧
    intensityAfter n ≤ intensityAfter (n + 1) ∧
    intensityAfter (500 + n) = 1 := by
  refine ⟨intensityAfter_eq n, ?_, ?_⟩
  · rw [intensityAfter_eq n, intensityAfter_eq (n + 1)]
    have : ((n : ℚ)) / 500 ≤ ((n : ℚ) + 1) / 500 := by linarith
    push_cast
    exact min_le_min le_rfl this
  · rw [intensityAfter_eq (500 + n)]
    have : (1 : ℚ) ≤ ((500 + n : Nat) : ℚ) / 500 := by
      push_cast
      have : (0 : ℚ) ≤ (n : ℚ) := Nat.cast_nonneg n
      linarith
    simpa using min_eq_left this

/-- The site theme as read from the data-theme attribute. -/
inductive Theme
  | light
  | dark
deriving DecidableEq, Repr

/-- getLineColor (SpacetimeCursor.tsx lines 16-28): dark gray when the
data-theme attribute is "light", light gray otherwise. -/
def getLineColor : Theme → ℚ × ℚ × ℚ
  | .light => (60, 60, 70)
  | .dark => (180, 180, 190)

/-- The RGB triple SpacetimeCursor strokes a frame with: getLineColor is
called exactly once, before the animation loop starts (SpacetimeCursor.tsx
line 113), and every frame closes over that mount-time result, so the theme
current at the frame is never consulted. -/
def cursorFrameColor (mountTheme _currentTheme : Theme) : ℚ × ℚ × ℚ :=
  getLineColor mountTheme

/-- C8, code evaluated at the failing input: a SpacetimeCursor scene mounted
under the dark theme keeps stroking frames with the dark-theme color
(180,180,190) after the theme has switched to light, instead of the light
theme's (60,60,70). -/
theorem c8_stale_theme_color :
    cursorFrameColor .dark .light = (180, 180, 190) ∧
    getLineColor .light = (60, 60, 70) ∧
    cursorFrameColor .dark .light ≠ getLineColor .light := by
  refine ⟨rfl, rfl, ?_⟩
  decide

/-- One frame's opacity write for one star (StarField.tsx lines 167-171):
the stored opacity is multiplied by the current twinkle factor.  The source
reads baseOpacities[i] for the base, but baseOpacities aliases the very
Float32Array held by the geometry's opacity BufferAttribute
(geometry.setAttribute at line 101 wraps the same opacities array that
line 170 writes into), so the base is the previous frame's displayed value,
not the mount-time value. -/
def starOpacityStep (msin : ℚ → ℚ) (speed phase time op : ℚ) : ℚ :=
  op * (7/10 + msin (time * speed + phase) * (3/10))

/-- Stored/displayed opacity of a star after n animation frames; the time
uniform advances by 0.002 = 1/500 before each frame's update
(StarField.tsx line 161), so frame k runs at time k/500. -/
def starOpacityAfter (msin : ℚ → ℚ) (speed phase base : ℚ) : Nat → ℚ
  | 0 => base
  | n + 1 =>
      starOpacityStep msin speed phase (((n : ℚ) + 1) * (1/500))
        (starOpacityAfter msin speed phase base n)

/-- The claim's displayed-opacity formula, written from the spec's words:
baseOpacity · (0.7 + 0.3 · sin(t · twinkleSpeed + phase)) with the base
fixed at initialization. -/
def specStarOpacity (msin : ℚ → ℚ) (speed phase base time : ℚ) : ℚ :=
  base * (7/10 + msin (time * speed + phase) * (3/10))

/-- C3: the code compounds the twinkle factor — after n frames the stored
opacity is the base times the product of all n twinkle factors, not the base
times the current factor alone.  Concretely, under the interpretation in
which the sine sample is 0 (twinkle factor 0.7), the code's opacity after
two frames is 0.49 while the claimed formula gives 0.7. -/
theorem c3_opacity_compounds :
    (∀ (msin : ℚ → ℚ) (speed phase base : ℚ) (n : Nat),
      starOpacityAfter msin speed phase base n =
        base * ∏ k in Finset.range n,
          (7/10 + msin (((k : ℚ) + 1) * (1/500) * speed + phase) * (3/10))) ∧
    starOpacityAfter (fun _ => 0) 1 0 1 2 = 49/100 ∧
    specStarOpacity (fun _ => 0) 1 0 1 (2 * (1/500)) = 7/10 ∧
    starOpacityAfter (fun _ => 0) 1 0 1 2 ≠
      specStarOpacity (fun _ => 0) 1 0 1 (2 * (1/500)) := by
  refine ⟨?_, by norm_num [starOpacityAfter, starOpacityStep],
    by norm_num [specStarOpacity],
    by norm_num [starOpacityAfter, starOpacityStep, specStarOpacity]⟩
  intro msin speed phase base n
  induction n with
  | zero => simp [starOpacityAfter]
  | succ k ih =>
    rw [starOpacityAfter, Finset.prod_range_succ, starOpacityStep, ih]
    ring

/-- seededRandom (SpacetimeManifold.tsx lines 46-49 and StarField.tsx lines
40-43): frac(sin(seed + offset) · 10000), a pure function of the seed and
the offset. -/
def seededRandom (msin : ℚ → ℚ) (seed offset : ℚ) : ℚ :=
  let x := msin (seed + offset) * 10000
  x - (Int.floor x : ℚ)

/-- A 3-vector of JS numbers. -/
structure Vec3 where
  x : ℚ
  y : ℚ
  z : ℚ
deriving DecidableEq, Repr

/-- Initial position of manifold particle i (SpacetimeManifold.tsx lines
95-97).  The rng argument is the ambient Math.random stream; this
initializer never draws from it — every draw goes through seededRandom. -/
def manifoldInitPos (msin : ℚ → ℚ) (_rng : Nat → ℚ) (seed : ℚ) (i : Nat) : Vec3 :=
  ⟨(seededRandom msin seed (3 * i) - 1/2) * 200,
   (seededRandom msin seed (3 * i + 1) - 1/2) * 150,
   (seededRandom msin seed (3 * i + 2) - 1/2) * 80⟩

/-- Initial drift velocity of manifold particle i (SpacetimeManifold.tsx
lines 106-110); again no Math.random draw. -/
def manifoldInitVel (msin : ℚ → ℚ) (_rng : Nat → ℚ) (seed : ℚ) (i : Nat) : Vec3 :=
  ⟨(seededRandom msin seed (11 * i) - 1/2) * (1/50),
   (seededRandom msin seed (13 * i) - 1/2) * (1/50),
   (seededRandom msin seed (17 * i) - 1/2) * (1/100)⟩

/-- Initial position of star i (StarField.tsx lines 80-86); no Math.random
draw. -/
def starInitPos (msin mcos macos : ℚ → ℚ) (mpi : ℚ) (_rng : Nat → ℚ)
    (seed : ℚ) (i : Nat) : Vec3 :=
  let theta := seededRandom msin seed (2 * i) * mpi * 2
  let phi := macos (2 * seededRandom msin seed (3 * i) - 1)
  let r := 200 + seededRandom msin seed (5 * i) * 800
  ⟨r * msin phi * mcos theta, r * msin phi * msin theta, r * mcos phi - 400⟩

/-- Mount-time base opacity of star i (StarField.tsx line 89); no
Math.random draw. -/
def starBaseOpacity (msin : ℚ → ℚ) (_rng : Nat → ℚ) (seed : ℚ) (i : Nat) : ℚ :=
  3/10 + seededRandom msin seed (7 * i) * (7/10)

/-- Twinkle phase of star i (StarField.tsx line 96); no Math.random draw. -/
def starTwinklePhase (msin : ℚ → ℚ) (mpi : ℚ) (_rng : Nat → ℚ) (seed : ℚ)
    (i : Nat) : ℚ :=
  seededRandom msin seed (13 * i) * mpi * 2

/-- Twinkle speed of star i (StarField.tsx line 97); no Math.random draw. -/
def starTwinkleSpeed (msin : ℚ → ℚ) (_rng : Nat → ℚ) (seed : ℚ) (i : Nat) : ℚ :=
  1/2 + seededRandom msin seed (17 * i) * 2

/-- Latest pointer sample of a scene (mouseRef in VectorField.tsx line 49 and
SpacetimeManifold.tsx line 39): coordinates plus an active flag; active is
set false on mouseleave and is false before the pointer ever enters. -/
structure MouseState where
  x : ℚ
  y : ℚ
  active : Bool
deriving DecidableEq, Repr

/-- One per-particle update of the manifold scene's animate body
(SpacetimeManifold.tsx lines 221-256): constant per-particle drift, shared
sinusoidal wobble added to y, an additive pointer force on x and y only when
the pointer is active and within range, then wrap-around of x at ±100 and of
y at ±75.  z is touched only by the drift. -/
def manifoldStepParticle (msin msqrt : ℚ → ℚ) (mouse : MouseState)
    (t : ℚ) (i : Nat) (vel : Vec3) (p : Vec3) : Vec3 :=
  let p1 : Vec3 := ⟨p.x + vel.x, p.y + vel.y, p.z + vel.z⟩
  let p2 : Vec3 := ⟨p1.x, p1.y + msin (t + (i : ℚ) * (1/100)) * (1/50), p1.z⟩
  let p3 : Vec3 :=
    if mouse.active then
      let mx := mouse.x * 80
      let my := mouse.y * 60
      let dx := mx - p2.x
      let dy := my - p2.y
      let distSq := dx * dx + dy * dy
      if distSq < 2500 ∧ distSq > 1 then
        let force := (3/10) / msqrt distSq
        ⟨p2.x + dx * force, p2.y + dy * force, p2.z⟩
      else p2
    else p2
  let x4 := if p3.x > 100 then (-100 : ℚ) else if p3.x < -100 then (100 : ℚ) else p3.x
  let y4 := if p3.y > 75 then (-75 : ℚ) else if p3.y < -75 then (75 : ℚ) else p3.y
  ⟨x4, y4, p3.z⟩

/-- n iterated manifold particle updates under per-frame pointer and time
sequences. -/
def manifoldRun (msin msqrt : ℚ → ℚ) (mouse : Nat → MouseState) (ts : Nat → ℚ)
    (i : Nat) (vel : Vec3) : Nat → Vec3 → Vec3
  | 0, p => p
  | n + 1, p =>
      manifoldStepParticle msin msqrt (mouse n) (ts n) i vel
        (manifoldRun msin msqrt mouse ts i vel n p)

/-- The z coordinate of a manifold particle changes by exactly vel.z in every
update, whatever the pointer does. -/
theorem manifoldStepParticle_z (msin msqrt : ℚ → ℚ) (mouse : MouseState)
    (t : ℚ) (i : Nat) (vel p : Vec3) :
    (manifoldStepParticle msin msqrt mouse t i vel p).z = p.z + vel.z := by
  unfold manifoldStepParticle
  dsimp only
  split
  · split <;> rfl
  · rfl

/-- With an inactive pointer the manifold update ignores the stored pointer
coordinates entirely. -/
theorem manifoldStepParticle_inactive (msin msqrt : ℚ → ℚ)
    (mx my mx' my' t : ℚ) (i : Nat) (vel p : Vec3) :
    manifoldStepParticle msin msqrt ⟨mx, my, false⟩ t i vel p =
      manifoldStepParticle msin msqrt ⟨mx', my', false⟩ t i vel p := by
  unfold manifoldStepParticle
  rfl

/-- C10: across manifold frames the z coordinate evolves as z₀ + n·vel.z —
wobble, pointer force and wrap-around touch only x and y — so for any
particle with nonzero z velocity, |z| eventually exceeds every fixed bound. -/
theorem c10_manifold_z_unbounded (msin msqrt : ℚ → ℚ) (mouse : Nat → MouseState)
    (ts : Nat → ℚ) (i : Nat) (vel p : Vec3) :
    (∀ n : Nat, (manifoldRun msin msqrt mouse ts i vel n p).z = p.z + n * vel.z) ∧
    (vel.z ≠ 0 → ∀ M : ℚ, ∃ n : Nat,
      |(manifoldRun msin msqrt mouse ts i vel n p).z| > M) := by
  have hz : ∀ n : Nat, (manifoldRun msin msqrt mouse ts i vel n p).z = p.z + n * vel.z := by
    intro n
    induction n with
    | zero => simp [manifoldRun]
    | succ k ih =>
      rw [manifoldRun, manifoldStepParticle_z, ih]
      push_cast
      ring
  refine ⟨hz, ?_⟩
  intro hv M
  have hvpos : 0 < |vel.z| := abs_pos.mpr hv
  obtain ⟨n, hn⟩ := exists_nat_gt ((M + |p.z|) / |vel.z|)
  refine ⟨n, ?_⟩
  rw [hz n]
  have h1 : M + |p.z| < n * |vel.z| := by
    rw [div_lt_iff₀ hvpos] at hn
    linarith
  have h2 : |(n : ℚ) * vel.z| - |p.z| ≤ |p.z + n * vel.z| := by
    have h := abs_sub_abs_le_abs_sub ((n : ℚ) * vel.z) (-p.z)
    rw [abs_neg] at h
    have he : (n : ℚ) * vel.z - -p.z = p.z + (n : ℚ) * vel.z := by ring
    rwa [he] at h
  have h5 : |(n : ℚ) * vel.z| = n * |vel.z| := by
    rw [abs_mul, Nat.abs_cast]
  linarith

/-- C10 witness: a particle with z velocity 1 passes |z| > 1000. -/
theorem c10_manifold_z_unbounded_witness :
    ∃ n : Nat,
      |(manifoldRun (fun _ => 0) (fun _ => 0) (fun _ => ⟨0, 0, false⟩)
          (fun _ => 0) 0 ⟨0, 0, 1⟩ n ⟨0, 0, 0⟩).z| > 1000 :=
  (c10_manifold_z_unbounded (fun _ => 0) (fun _ => 0) (fun _ => ⟨0, 0, false⟩)
      (fun _ => 0) 0 ⟨0, 0, 1⟩ ⟨0, 0, 0⟩).2 (by norm_num) 1000

/-- A flow-field particle (VectorField.tsx, interface Particle, lines
30-38). -/
structure FlowParticle where
  x : ℚ
  y : ℚ
  prevX : ℚ
  prevY : ℚ
  speed : ℚ
  life : ℚ
  maxLife : ℚ
deriving DecidableEq, Repr

/-- createParticle (VectorField.tsx lines 67-79); r1, r2, r3, r4 are the four
successive Math.random() draws it makes. -/
def createParticle (r1 r2 r3 r4 width height : ℚ) : FlowParticle :=
  { x := r1 * width, y := r2 * height,
    prevX := r1 * width, prevY := r2 * height,
    speed := 1/2 + r3 * (3/2), life := 0, maxLife := 100 + r4 * 200 }

/-- Initial particle i of a VectorField instance (VectorField.tsx lines
121-123): each particle consumes four draws of the ambient Math.random
stream. -/
def vectorFieldInit (rng : Nat → ℚ) (width height : ℚ) (i : Nat) : FlowParticle :=
  createParticle (rng (4 * i)) (rng (4 * i + 1)) (rng (4 * i + 2)) (rng (4 * i + 3))
    width height

/-- resetParticle (VectorField.tsx lines 82-89); r1, r2, r3 are the three
Math.random() draws; the particle's speed is kept. -/
def resetParticle (r1 r2 r3 width height : ℚ) (p : FlowParticle) : FlowParticle :=
  { p with
    x := r1 * width, y := r2 * height,
    prevX := r1 * width, prevY := r2 * height,
    life := 0, maxLife := 100 + r3 * 200 }

/-- The flow angle sampled for a particle (VectorField.tsx lines 168-186):
the noise angle noise(x·0.003, y·0.003, t)·π·2, linearly blended toward the
pointer direction when the pointer is active and strictly within 200px. -/
def vectorFieldAngle (noise3 : ℚ → ℚ → ℚ → ℚ) (msqrt : ℚ → ℚ)
    (matan2 : ℚ → ℚ → ℚ) (mpi : ℚ) (mouse : MouseState)
    (mouseInfluence px py t : ℚ) : ℚ :=
  let angle := noise3 (px * (3/1000)) (py * (3/1000)) t * mpi * 2
  if mouse.active then
    let dx := mouse.x - px
    let dy := mouse.y - py
    let distSq := dx * dx + dy * dy
    if distSq < 200 * 200 then
      let dist := msqrt distSq
      let influence := (1 - dist / 200) * mouseInfluence
      let mouseAngle := matan2 dy dx
      angle + (mouseAngle - angle) * influence
    else angle
  else angle

/-- The movement half of one VectorField frame for one particle
(VectorField.tsx lines 163-193): record the previous position, sample the
flow angle, advance by speed·(cos, sin), increment life. -/
def flowMove (noise3 : ℚ → ℚ → ℚ → ℚ) (msqrt : ℚ → ℚ) (matan2 : ℚ → ℚ → ℚ)
    (msin mcos : ℚ → ℚ) (mpi : ℚ) (mouse : MouseState)
    (mouseInfluence globalSpeed t : ℚ) (p : FlowParticle) : FlowParticle :=
  let angle := vectorFieldAngle noise3 msqrt matan2 mpi mouse mouseInfluence p.x p.y t
  let vx := mcos angle * p.speed * globalSpeed
  let vy := msin angle * p.speed * globalSpeed
  { p with
    prevX := p.x, prevY := p.y, x := p.x + vx, y := p.y + vy,
    life := p.life + 1 }

/-- The respawn guard (VectorField.tsx line 196): out of bounds or past
maxLife. -/
def flowExpired (width height : ℚ) (p : FlowParticle) : Prop :=
  p.x < 0 ∨ p.x > width ∨ p.y < 0 ∨ p.y > height ∨ p.life > p.maxLife

instance (width height : ℚ) (p : FlowParticle) : Decidable (flowExpired width height p) := by
  unfold flowExpired
  infer_instance

/-- One full per-particle frame update (VectorField.tsx lines 161-199):
move, then respawn via resetParticle if the moved particle expired. -/
def flowStep (noise3 : ℚ → ℚ → ℚ → ℚ) (msqrt : ℚ → ℚ) (matan2 : ℚ → ℚ → ℚ)
    (msin mcos : ℚ → ℚ) (mpi : ℚ) (mouse : MouseState)
    (mouseInfluence globalSpeed t width height r1 r2 r3 : ℚ)
    (p : FlowParticle) : FlowParticle :=
  let q := flowMove noise3 msqrt matan2 msin mcos mpi mouse mouseInfluence globalSpeed t p
  if flowExpired width height q then resetParticle r1 r2 r3 width height q else q

/-- The particle-liveness invariant of the spec: age within [0, maxAge] and
position within [0,width]×[0,height]. -/
def flowInvariant (width height : ℚ) (p : FlowParticle) : Prop :=
  0 ≤ p.life ∧ p.life ≤ p.maxLife ∧
  0 ≤ p.x ∧ p.x ≤ width ∧ 0 ≤ p.y ∧ p.y ≤ height

instance (width height : ℚ) (p : FlowParticle) : Decidable (flowInvariant width height p) := by
  unfold flowInvariant
  infer_instance

/-- C4: immediately after every per-particle frame update, the particle
satisfies 0 ≤ life ≤ maxLife with its position inside
[0,width]×[0,height]; and whenever the moved particle left the bounds or
outlived maxLife, the update's result is exactly resetParticle's respawn —
a fresh uniform in-bounds position with a freshly sampled maxLife.  The
Math.random draws r1, r2, r3 lie in [0,1). -/
theorem c4_flow_liveness
    (noise3 : ℚ → ℚ → ℚ → ℚ) (msqrt : ℚ → ℚ) (matan2 : ℚ → ℚ → ℚ)
    (msin mcos : ℚ → ℚ) (mpi : ℚ) (mouse : MouseState)
    (mouseInfluence globalSpeed t width height r1 r2 r3 : ℚ) (p : FlowParticle)
    (hw : 0 ≤ width) (hh : 0 ≤ height) (hlife : 0 ≤ p.life)
    (hr1 : 0 ≤ r1) (hr1' : r1 < 1) (hr2 : 0 ≤ r2) (hr2' : r2 < 1) (hr3 : 0 ≤ r3) :
    flowInvariant width height
      (flowStep noise3 msqrt matan2 msin mcos mpi mouse mouseInfluence
        globalSpeed t width height r1 r2 r3 p) ∧
    (flowExpired width height
        (flowMove noise3 msqrt matan2 msin mcos mpi mouse mouseInfluence
          globalSpeed t p) →
      flowStep noise3 msqrt matan2 msin mcos mpi mouse mouseInfluence
          globalSpeed t width height r1 r2 r3 p =
        resetParticle r1 r2 r3 width height
          (flowMove noise3 msqrt matan2 msin mcos mpi mouse mouseInfluence
            globalSpeed t p)) := by
  set q := flowMove noise3 msqrt matan2 msin mcos mpi mouse mouseInfluence
    globalSpeed t p with hq
  have hqlife : q.life = p.life + 1 := rfl
  have hqmax : q.maxLife = p.maxLife := rfl
  unfold flowStep
  rw [← hq]
  by_cases hexp : flowExpired width height q
  · rw [if_pos hexp]
    refine ⟨⟨le_refl 0, ?_, ?_, ?_, ?_, ?_⟩, fun _ => rfl⟩
    · show (0 : ℚ) ≤ 100 + r3 * 200
      nlinarith
    · show 0 ≤ r1 * width
      exact mul_nonneg hr1 hw
    · show r1 * width ≤ width
      nlinarith
    · show 0 ≤ r2 * height
      exact mul_nonneg hr2 hh
    · show r2 * height ≤ height
      nlinarith
  · rw [if_neg hexp]
    unfold flowExpired at hexp
    push_neg at hexp
    obtain ⟨hx0, hxw, hy0, hyh, hlm⟩ := hexp
    exact ⟨⟨by rw [hqlife]; linarith, hlm, hx0, hxw, hy0, hyh⟩,
      fun hexp' => absurd hexp' (by unfold flowExpired; push_neg; exact ⟨hx0, hxw, hy0, hyh, hlm⟩)⟩

/-- C4 witness at a concrete particle, pointer inactive, interpretation
cos = 1, sin = 0. -/
theorem c4_flow_liveness_witness :
    flowInvariant 100 50
      (flowStep (fun _ _ _ => 0) (fun _ => 0) (fun _ _ => 0)
        (fun _ => 0) (fun _ => 1) 3 ⟨0, 0, false⟩ (3/20) 1 0 100 50
        (1/2) (1/2) (1/2) ⟨5, 5, 5, 5, 1, 0, 150⟩) ∧
    (flowExpired 100 50
        (flowMove (fun _ _ _ => 0) (fun _ => 0) (fun _ _ => 0)
          (fun _ => 0) (fun _ => 1) 3 ⟨0, 0, false⟩ (3/20) 1 0
          ⟨5, 5, 5, 5, 1, 0, 150⟩) →
      flowStep (fun _ _ _ => 0) (fun _ => 0) (fun _ _ => 0)
          (fun _ => 0) (fun _ => 1) 3 ⟨0, 0, false⟩ (3/20) 1 0 100 50
          (1/2) (1/2) (1/2) ⟨5, 5, 5, 5, 1, 0, 150⟩ =
        resetParticle (1/2) (1/2) (1/2) 100 50
          (flowMove (fun _ _ _ => 0) (fun _ => 0) (fun _ _ => 0)
            (fun _ => 0) (fun _ => 1) 3 ⟨0, 0, false⟩ (3/20) 1 0
            ⟨5, 5, 5, 5, 1, 0, 150⟩)) :=
  c4_flow_liveness (fun _ _ _ => 0) (fun _ => 0) (fun _ _ => 0)
    (fun _ => 0) (fun _ => 1) 3 ⟨0, 0, false⟩ (3/20) 1 0 100 50
    (1/2) (1/2) (1/2) ⟨5, 5, 5, 5, 1, 0, 150⟩
    (by norm_num) (by norm_num) (by norm_num) (by norm_num) (by norm_num)
    (by norm_num) (by norm_num) (by norm_num)

/-- With inactive pointer samples the manifold update is the same function
whatever coordinates the samples carry. -/
theorem manifoldStepParticle_congr_inactive (msin msqrt : ℚ → ℚ)
    {m m' : MouseState} (hm : m.active = false) (hm' : m'.active = false)
    (t : ℚ) (i : Nat) (vel p : Vec3) :
    manifoldStepParticle msin msqrt m t i vel p =
      manifoldStepParticle msin msqrt m' t i vel p := by
  unfold manifoldStepParticle
  simp only [hm, hm', Bool.false_eq_true, if_false]

/-- C2 counterexample: a VectorField instance's initial particles are drawn
from the ambient, unseeded Math.random stream — its configuration carries no
seed — so two instances with the identical configuration (width 100, height
100) but distinct ambient streams already disagree on particle 0's initial
position, refuting "identical initial entity positions for the same seed and
configuration" for every scene. -/
theorem c2_counterexample :
    vectorFieldInit (fun _ => 0) 100 100 0 ≠ vectorFieldInit (fun _ => 1/2) 100 100 0 := by
  intro h
  have hx := congrArg FlowParticle.x h
  norm_num [vectorFieldInit, createParticle] at hx

/-- C2 amended: for the seeded scenes the property holds — SpacetimeManifold
and StarField initial entity state is a pure function of the seed (it never
consumes the ambient Math.random stream), and with no pointer input the
manifold simulation state after any number of steps is likewise identical
across two same-seed instances. -/
theorem c2_amended_seeded_determinism :
    (∀ (msin : ℚ → ℚ) (r1 r2 : Nat → ℚ) (seed : ℚ) (i : Nat),
      manifoldInitPos msin r1 seed i = manifoldInitPos msin r2 seed i ∧
      manifoldInitVel msin r1 seed i = manifoldInitVel msin r2 seed i) ∧
    (∀ (msin mcos macos : ℚ → ℚ) (mpi : ℚ) (r1 r2 : Nat → ℚ) (seed : ℚ) (i : Nat),
      starInitPos msin mcos macos mpi r1 seed i = starInitPos msin mcos macos mpi r2 seed i ∧
      starBaseOpacity msin r1 seed i = starBaseOpacity msin r2 seed i ∧
      starTwinklePhase msin mpi r1 seed i = starTwinklePhase msin mpi r2 seed i ∧
      starTwinkleSpeed msin r1 seed i = starTwinkleSpeed msin r2 seed i) ∧
    (∀ (msin msqrt : ℚ → ℚ) (m1 m2 : Nat → MouseState) (ts : Nat → ℚ)
        (r1 r2 : Nat → ℚ) (seed : ℚ) (i n : Nat),
      (∀ k, (m1 k).active = false) → (∀ k, (m2 k).active = false) →
      manifoldRun msin msqrt m1 ts i (manifoldInitVel msin r1 seed i) n
          (manifoldInitPos msin r1 seed i) =
        manifoldRun msin msqrt m2 ts i (manifoldInitVel msin r2 seed i) n
          (manifoldInitPos msin r2 seed i)) := by
  refine ⟨fun _ _ _ _ _ => ⟨rfl, rfl⟩,
    fun _ _ _ _ _ _ _ _ => ⟨rfl, rfl, rfl, rfl⟩, ?_⟩
  intro msin msqrt m1 m2 ts r1 r2 seed i n hm1 hm2
  induction n with
  | zero => rfl
  | succ k ih =>
    rw [manifoldRun, manifoldRun, ih]
    exact manifoldStepParticle_congr_inactive msin msqrt (hm1 k) (hm2 k) (ts k) i
      (manifoldInitVel msin r2 seed i)
      (manifoldRun msin msqrt m2 ts i (manifoldInitVel msin r2 seed i) k
        (manifoldInitPos msin r2 seed i))

/-- C2 amended witness: two same-seed manifold instances under different
ambient Math.random streams and different (inactive) pointer samples agree
after three steps. -/
theorem c2_amended_seeded_determinism_witness :
    manifoldRun (fun _ => 0) (fun _ => 0) (fun _ => ⟨1, 2, false⟩) (fun _ => 0) 0
        (manifoldInitVel (fun _ => 0) (fun _ => 0) 5 0) 3
        (manifoldInitPos (fun _ => 0) (fun _ => 0) 5 0) =
      manifoldRun (fun _ => 0) (fun _ => 0) (fun _ => ⟨3, 4, false⟩) (fun _ => 0) 0
        (manifoldInitVel (fun _ => 0) (fun _ => 1) 5 0) 3
        (manifoldInitPos (fun _ => 0) (fun _ => 1) 5 0) :=
  c2_amended_seeded_determinism.2.2 (fun _ => 0) (fun _ => 0)
    (fun _ => ⟨1, 2, false⟩) (fun _ => ⟨3, 4, false⟩) (fun _ => 0)
    (fun _ => 0) (fun _ => 1) 5 0 3 (fun _ => rfl) (fun _ => rfl)

/-- One sampled point of a bent grid line (SpacetimeCursor.tsx drawBentLine,
lines 83-106), at interpolation parameter tp along the segment
(x1,y1)-(x2,y2): a sinusoidal wave plus, when the pointer is strictly within
250px and farther than 10px, a bend toward the pointer. -/
def drawBentLinePoint (msin msqrt : ℚ → ℚ)
    (x1 y1 x2 y2 mx my intensity time tp : ℚ) : ℚ × ℚ :=
  let baseX := x1 + (x2 - x1) * tp
  let baseY := y1 + (y2 - y1) * tp
  let wave := msin (time * (1/2) + tp * 4) * 3 * intensity
  let dx := mx - baseX
  let dy := my - baseY
  let dist := msqrt (dx * dx + dy * dy)
  if dist < 250 ∧ dist > 10 then
    let influence := (1 - dist / 250) ^ 2 * 50 * intensity
    (baseX + dx / dist * influence, baseY + dy / dist * influence + wave)
  else (baseX, baseY + wave)

/-- C9: with the pointer inactive, (1) the VectorField flow angle is the pure
noise angle whatever coordinates the stale sample carries, (2) the manifold
particle update is independent of the stale coordinates, (3) the cursor grid
with its sentinel pointer (-1000,-1000) (the mouseleave / never-entered
value) draws every in-viewport point unbent, assuming Math.sqrt is monotone
with sqrt 62500 = 250, and (4) the inactive behavior differs from that of an
active pointer at (0,0) whenever a particle is in range of the origin and
the pointer direction disagrees with the noise angle. -/
theorem c9_inactive_pointer_neutral :
    (∀ (noise3 : ℚ → ℚ → ℚ → ℚ) (msqrt : ℚ → ℚ) (matan2 : ℚ → ℚ → ℚ)
        (mpi mi px py t mx my : ℚ),
      vectorFieldAngle noise3 msqrt matan2 mpi ⟨mx, my, false⟩ mi px py t =
        noise3 (px * (3/1000)) (py * (3/1000)) t * mpi * 2) ∧
    (∀ (msin msqrt : ℚ → ℚ) (mx my mx' my' t : ℚ) (i : Nat) (vel p : Vec3),
      manifoldStepParticle msin msqrt ⟨mx, my, false⟩ t i vel p =
        manifoldStepParticle msin msqrt ⟨mx', my', false⟩ t i vel p) ∧
    (∀ (msin msqrt : ℚ → ℚ) (x1 y1 x2 y2 intensity time tp : ℚ),
      (∀ a b : ℚ, a ≤ b → msqrt a ≤ msqrt b) → msqrt 62500 = 250 →
      0 ≤ x1 + (x2 - x1) * tp → 0 ≤ y1 + (y2 - y1) * tp →
      drawBentLinePoint msin msqrt x1 y1 x2 y2 (-1000) (-1000) intensity time tp =
        (x1 + (x2 - x1) * tp,
         y1 + (y2 - y1) * tp + msin (time * (1/2) + tp * 4) * 3 * intensity)) ∧
    (∀ (noise3 : ℚ → ℚ → ℚ → ℚ) (msqrt : ℚ → ℚ) (matan2 : ℚ → ℚ → ℚ)
        (mpi mi px py t : ℚ),
      (0 - px) * (0 - px) + (0 - py) * (0 - py) < 200 * 200 →
      0 < (1 - msqrt ((0 - px) * (0 - px) + (0 - py) * (0 - py)) / 200) * mi →
      matan2 (0 - py) (0 - px) ≠ noise3 (px * (3/1000)) (py * (3/1000)) t * mpi * 2 →
      vectorFieldAngle noise3 msqrt matan2 mpi ⟨0, 0, true⟩ mi px py t ≠
        vectorFieldAngle noise3 msqrt matan2 mpi ⟨0, 0, false⟩ mi px py t) := by
  refine ⟨fun _ _ _ _ _ _ _ _ _ _ => rfl,
    fun msin msqrt mx my mx' my' t i vel p =>
      manifoldStepParticle_inactive msin msqrt mx my mx' my' t i vel p, ?_, ?_⟩
  · intro msin msqrt x1 y1 x2 y2 intensity time tp hmono hanchor hbx hby
    unfold drawBentLinePoint
    dsimp only
    rw [if_neg]
    rintro ⟨hlt, -⟩
    set B := x1 + (x2 - x1) * tp with hB
    set C := y1 + (y2 - y1) * tp with hC
    have hdx : (-1000 - B) * (-1000 - B) = 1000000 + 2000 * B + B * B := by ring
    have hdy : (-1000 - C) * (-1000 - C) = 1000000 + 2000 * C + C * C := by ring
    have hBB : 0 ≤ B * B := mul_nonneg hbx hbx
    have hCC : 0 ≤ C * C := mul_nonneg hby hby
    have hge : (62500 : ℚ) ≤ (-1000 - B) * (-1000 - B) + (-1000 - C) * (-1000 - C) := by
      rw [hdx, hdy]
      linarith
    have := hmono 62500 ((-1000 - B) * (-1000 - B) + (-1000 - C) * (-1000 - C)) hge
    rw [hanchor] at this
    linarith
  · intro noise3 msqrt matan2 mpi mi px py t hd hI hM heq
    unfold vectorFieldAngle at heq
    dsimp only at heq
    simp only [reduceIte, Bool.false_eq_true, if_false] at heq
    rw [if_pos hd] at heq
    have h0 : (matan2 (0 - py) (0 - px) -
        noise3 (px * (3/1000)) (py * (3/1000)) t * mpi * 2) *
        ((1 - msqrt ((0 - px) * (0 - px) + (0 - py) * (0 - py)) / 200) * mi) = 0 := by
      linarith
    rcases mul_eq_zero.mp h0 with h | h
    · exact hM (sub_eq_zero.mp h)
    · rw [h] at hI
      exact lt_irrefl 0 hI

/-- A concrete interpretation of Math.sqrt used by witnesses: monotone and
exact at 62500 (= 250²). -/
def msqrtW (q : ℚ) : ℚ := if q < 62500 then 14 else 250

/-- msqrtW is monotone. -/
theorem msqrtW_mono : ∀ a b : ℚ, a ≤ b → msqrtW a ≤ msqrtW b := by
  intro a b hab
  unfold msqrtW
  by_cases ha : a < 62500
  · by_cases hb : b < 62500
    · rw [if_pos ha, if_pos hb]
    · rw [if_pos ha, if_neg hb]
      norm_num
  · by_cases hb : b < 62500
    · exact absurd (lt_of_le_of_lt hab hb) ha
    · rw [if_neg ha, if_neg hb]

/-- C9 witness: the four conjuncts instantiated at concrete scenes, pointer
samples, particles and interpretations of the host functions. -/
theorem c9_inactive_pointer_neutral_witness :
    vectorFieldAngle (fun _ _ _ => 0) msqrtW (fun _ _ => 1) 3 ⟨7, 9, false⟩
        (3/20) 10 10 0 = 0 ∧
    manifoldStepParticle (fun _ => 0) msqrtW ⟨5, 6, false⟩ 0 0 ⟨1, 1, 1⟩ ⟨2, 3, 4⟩ =
      manifoldStepParticle (fun _ => 0) msqrtW ⟨-3, 4, false⟩ 0 0 ⟨1, 1, 1⟩ ⟨2, 3, 4⟩ ∧
    drawBentLinePoint (fun _ => 0) msqrtW 0 0 100 0 (-1000) (-1000) 1 1 (1/2) =
      (50, 0) ∧
    vectorFieldAngle (fun _ _ _ => 0) msqrtW (fun _ _ => 1) 3 ⟨0, 0, true⟩
        (3/20) 10 10 0 ≠
      vectorFieldAngle (fun _ _ _ => 0) msqrtW (fun _ _ => 1) 3 ⟨0, 0, false⟩
        (3/20) 10 10 0 := by
  refine ⟨?_, ?_, ?_, ?_⟩
  · have h := c9_inactive_pointer_neutral.1 (fun _ _ _ => 0) msqrtW (fun _ _ => 1)
      3 (3/20) 10 10 0 7 9
    simpa using h
  · exact c9_inactive_pointer_neutral.2.1 (fun _ => 0) msqrtW 5 6 (-3) 4 0 0
      ⟨1, 1, 1⟩ ⟨2, 3, 4⟩
  · have h := c9_inactive_pointer_neutral.2.2.1 (fun _ => 0) msqrtW 0 0 100 0 1 1
      (1/2) msqrtW_mono (by norm_num [msqrtW]) (by norm_num) (by norm_num)
    norm_num at h
    exact h
  · exact c9_inactive_pointer_neutral.2.2.2 (fun _ _ _ => 0) msqrtW (fun _ _ => 1)
      3 (3/20) 10 10 0 (by norm_num) (by norm_num [msqrtW]) (by norm_num)

/-- Mount behavior as a function of whether the host can provide the scene's
drawing context.  The three canvas-2D scenes guard context acquisition
(VectorField.tsx lines 95-96, DoublePendulum.tsx lines 63-64,
SpacetimeCursor.tsx lines 43-44: if getContext returns null the effect
returns, leaving an inert blank canvas and no cleanup to do).  The two WebGL
scenes construct THREE.WebGLRenderer with no guard (SpacetimeManifold.tsx
lines 73-77, StarField.tsx lines 58-62); the three.js constructor throws
"Error creating WebGL context." when the host cannot create a WebGL context
(behavior of the three.js dependency, not of repository code).  The Bool in
the ok case records whether the scene mounted into the inert fallback. -/
def sceneMountWithContext : Scene → Bool → Except String Bool
  | .vectorField, avail => if avail then .ok false else .ok true
  | .doublePendulum, avail => if avail then .ok false else .ok true
  | .cursor, avail => if avail then .ok false else .ok true
  | .manifold, avail =>
      if avail then .ok false else .error "Error creating WebGL context."
  | .starField, avail =>
      if avail then .ok false else .error "Error creating WebGL context."

/-- C7 counterexample: with no usable rendering context, mounting the
SpacetimeManifold (and likewise the StarField) scene throws from the
THREE.WebGLRenderer constructor instead of producing an inert mounted
scene, refuting "every scene mounts into a visually inert fallback without
throwing". -/
theorem c7_counterexample :
    sceneMountWithContext .manifold false = .error "Error creating WebGL context." ∧
    sceneMountWithContext .starField false = .error "Error creating WebGL context." :=
  ⟨rfl, rfl⟩

/-- C7 amended: when the host cannot provide a drawing context, the three
canvas-2D scenes mount into a visually inert state without throwing (their
effects return early, so disposal is a no-op), while the two WebGL scenes
throw from the THREE.WebGLRenderer constructor. -/
theorem c7_amended_context_fallback :
    sceneMountWithContext .vectorField false = .ok true ∧
    sceneMountWithContext .doublePendulum false = .ok true ∧
    sceneMountWithContext .cursor false = .ok true ∧
    sceneMountWithContext .manifold false = .error "Error creating WebGL context." ∧
    sceneMountWithContext .starField false = .error "Error creating WebGL context." :=
  ⟨rfl, rfl, rfl, rfl, rfl⟩

/-- Double-pendulum state (DoublePendulum.tsx lines 75-78). -/
structure PendulumState where
  angle1 : ℚ
  angle2 : ℚ
  angVel1 : ℚ
  angVel2 : ℚ
deriving DecidableEq, Repr

/-- One integration step of DoublePendulum.tsx animate (lines 95-120), with
the configured constants g = 0.5, damping = 0.9999, L1 = 90, L2 = 70,
m1 = m2 = 10: accelerations from the coupled equations, velocity update,
multiplicative damping, angle update.  (Kept as context for the boundedness
claim; the claim itself is neither proved nor refuted here.) -/
def pendulumStep (msin mcos : ℚ → ℚ) (s : PendulumState) : PendulumState :=
  let num1 := -(1/2) * (2 * 10 + 10) * msin s.angle1
  let num2 := -10 * (1/2) * msin (s.angle1 - 2 * s.angle2)
  let num3 := -2 * msin (s.angle1 - s.angle2) * 10
  let num4 := s.angVel2 * s.angVel2 * 70 +
    s.angVel1 * s.angVel1 * 90 * mcos (s.angle1 - s.angle2)
  let den := 90 * (2 * 10 + 10 - 10 * mcos (2 * s.angle1 - 2 * s.angle2))
  let angAcc1 := (num1 + num2 + num3 * num4) / den
  let num5 := 2 * msin (s.angle1 - s.angle2)
  let num6 := s.angVel1 * s.angVel1 * 90 * (10 + 10)
  let num7 := (1/2) * (10 + 10) * mcos s.angle1
  let num8 := s.angVel2 * s.angVel2 * 70 * 10 * mcos (s.angle1 - s.angle2)
  let den2 := 70 * (2 * 10 + 10 - 10 * mcos (2 * s.angle1 - 2 * s.angle2))
  let angAcc2 := (num5 * (num6 + num7 + num8)) / den2
  let v1 := (s.angVel1 + angAcc1) * (9999/10000)
  let v2 := (s.angVel2 + angAcc2) * (9999/10000)
  { angle1 := s.angle1 + v1, angle2 := s.angle2 + v2, angVel1 := v1, angVel2 := v2 }
